import Mathlib

/-!
Verification of the JOB-EZ core against its specification.

The development shallowly embeds the two core components:

* the Matcher (src/llm_engine.py): resume selection with LLM-response
  parsing, validation, normalization and deterministic fallback, plus the
  should_apply decision gate;
* the Applicator (src/bot.py): the apply_to_job form-traversal state
  machine, with the browser page abstracted as an environment that reports
  which affordances are visible at each form step and where faults occur.

Python dicts are modelled as association lists in insertion order; floats
by rationals; raised exceptions by Except / Option results.
-/

/- ===== String helpers (models of Python str operations) ===== -/

/-- Model of Python str.lower (character-wise lowering). -/
def strLower (s : String) : String := String.mk (s.data.map Char.toLower)

/-- Character-list version of Python str.startswith, used to model `in`. -/
def charsStartWith : List Char → List Char → Bool
  | _, [] => true
  | [], _ :: _ => false
  | h :: hs, n :: ns => h == n && charsStartWith hs ns

/-- Model of Python substring containment `needle in hay` on char lists. -/
def charsContain : List Char → List Char → Bool
  | [], needle => needle == []
  | h :: t, needle => charsStartWith (h :: t) needle || charsContain t needle

/-- Model of Python `needle in hay` for strings. -/
def strContains (hay needle : String) : Bool :=
  charsContain hay.data needle.data

/-- Model of Python str.split with no argument: split on whitespace,
dropping empty pieces. -/
def pyWords (s : String) : List String :=
  (s.split Char.isWhitespace).filter (fun w => w ≠ "")

/- ===== Matcher data model (src/llm_engine.py) ===== -/

/-- A resume record as supplied by the resume store: the extracted text.
(The store also repeats the filename inside the record; only the text is
read by the Matcher.) -/
structure ResumeRecord where
  text : String
deriving DecidableEq

/-- The resumes dictionary passed to the Matcher: filename-keyed, in
insertion order. -/
abbrev Resumes := List (String × ResumeRecord)

/-- The keys of the resumes dictionary, in iteration order
(Python list(resumes.keys())). -/
def dictKeys (r : Resumes) : List String := r.map Prod.fst

/-- Membership test `k in resumes` on the resumes dictionary. -/
def dictHasKey (k : String) : Resumes → Bool
  | [] => false
  | (name, _) :: rest => name == k || dictHasKey k rest

/-- The JSON object recovered from the model response text, with each of
the schema fields possibly missing (json.loads succeeded but a field may
be absent; an absent or unconvertible field drives the except-path of
_parse_llm_response, hence an Option). -/
structure RawResponse where
  selected_resume : Option String
  confidence : Option ℚ
  reasoning : Option String
  match_score : Option Int
  key_matches : Option (List String)
deriving DecidableEq

/-- The validated result dictionary returned by select_best_resume. -/
structure MatchResult where
  selected_resume : String
  confidence : ℚ
  reasoning : String
  match_score : Int
  key_matches : Option (List String)
deriving DecidableEq

/-- Outcome of the single model call inside select_best_resume: either the
call (or JSON decoding) faults, or it yields a decoded JSON object. -/
inductive LLMOutcome where
  | fault (msg : String)
  | response (raw : RawResponse)

/-- Reasoning string of _fallback_selection (src/llm_engine.py line 213). -/
def fallbackReasoning : String := "Fallback selection due to LLM error"

/-- Error message of the empty-candidate check
(src/llm_engine.py line 66). -/
def emptyResumesMsg : String := "❌ No resumes available for matching!"

/-- Embedding of _fallback_selection (src/llm_engine.py lines 203-216):
first resume in iteration order, confidence 0.5, score 50. On an empty
dictionary `list(resumes.keys())[0]` raises IndexError, modelled as none. -/
def fallback_selection : Resumes → Option MatchResult
  | [] => none
  | (firstResume, _) :: _ =>
      some { selected_resume := firstResume
             confidence := (1 : ℚ) / 2
             reasoning := fallbackReasoning
             match_score := 50
             key_matches := some [] }

/-- Embedding of the confidence normalization of _parse_llm_response
(src/llm_engine.py lines 183-187): percent scale if the value exceeds 1,
then clamp to the unit interval. -/
def normalizeConfidence (c : ℚ) : ℚ :=
  let c2 := if c > 1 then c / 100 else c
  max 0 (min 1 c2)

/-- Embedding of the match_score clamp (src/llm_engine.py line 190). -/
def clampScore (s : Int) : Int := max 0 (min 100 s)

/-- Embedding of the case-insensitive key scan of _parse_llm_response
(src/llm_engine.py lines 175-179): first key whose lowering equals the
lowering of the reported name; the loop breaks at the first hit. -/
def findCaseInsensitive (sel : String) : Resumes → Option String
  | [] => none
  | (name, _) :: rest =>
      if strLower name == strLower sel then some name
      else findCaseInsensitive sel rest

/-- Embedding of the selected_resume validation of _parse_llm_response
(src/llm_engine.py lines 173-181): exact key first, otherwise the
case-insensitive scan; none models the raised ValueError. -/
def resolveSelected (sel : String) (resumes : Resumes) : Option String :=
  if dictHasKey sel resumes then some sel
  else findCaseInsensitive sel resumes

/-- Embedding of _parse_llm_response (src/llm_engine.py lines 152-200):
all four required fields must be present, the selected resume must resolve
to a key, confidence is normalized and match_score clamped; every failure
path is caught inside the function and degrades to _fallback_selection. -/
def parse_llm_response (raw : RawResponse) (resumes : Resumes) :
    Option MatchResult :=
  match raw.selected_resume, raw.confidence, raw.reasoning, raw.match_score with
  | some sel, some conf, some reas, some score =>
      match resolveSelected sel resumes with
      | none => fallback_selection resumes
      | some name =>
          some { selected_resume := name
                 confidence := normalizeConfidence conf
                 reasoning := reas
                 match_score := clampScore score
                 key_matches := raw.key_matches }
  | _, _, _, _ => fallback_selection resumes

/-- Embedding of select_best_resume (src/llm_engine.py lines 43-89): raise
on an empty dictionary, otherwise one model call whose outcome is either a
fault (handled by the fallback) or a decoded response (handled by the
parser); Except.error models an exception surfacing to the caller. -/
def select_best_resume (resumes : Resumes) (outcome : LLMOutcome) :
    Except String MatchResult :=
  if resumes.isEmpty then Except.error emptyResumesMsg
  else
    match outcome with
    | LLMOutcome.fault _ =>
        match fallback_selection resumes with
        | some mr => Except.ok mr
        | none => Except.error ("IndexError: list index out of range")
    | LLMOutcome.response raw =>
        match parse_llm_response raw resumes with
        | some mr => Except.ok mr
        | none => Except.error ("IndexError: list index out of range")

/- ===== should_apply gate (src/llm_engine.py lines 219-260) ===== -/

/-- The match_result dictionary as consumed by should_apply: the two read
fields, each read with .get and default 0 when the key is absent. -/
structure MatchDict where
  confidence : Option ℚ
  match_score : Option Int
deriving DecidableEq

/-- The red-flag phrase list (src/llm_engine.py line 251). -/
def red_flags : List String := [("commission only"), ("pay to apply")]

/-- Red-flag scan of should_apply (src/llm_engine.py lines 251-257): any
red-flag phrase contained in the lowered job description. -/
def hasRedFlag (job_description : String) : Bool :=
  red_flags.any (fun flag => strContains (strLower job_description) flag)

/-- Embedding of should_apply (src/llm_engine.py lines 219-260): reject on
low confidence, then on low match score, then on a red flag; otherwise
approve. -/
def should_apply (job_description : String) (match_result : MatchDict)
    (min_confidence : ℚ) (min_match_score : Int) : Bool :=
  let confidence := match_result.confidence.getD 0
  let score := match_result.match_score.getD 0
  if confidence < min_confidence then false
  else if score < min_match_score then false
  else if hasRedFlag job_description then false
  else true

/- ===== State-threaded Matcher (for the read-only frame property) =====

Each function below performs exactly the dictionary traversals its Python
counterpart performs, and hands the resumes dictionary back alongside its
result, so that preservation of the dictionary is a statement about the
embedding rather than an assumption. -/

/-- First 800 words of a resume text, space-joined: the summary built by
_build_matching_prompt (src/llm_engine.py lines 101-106). -/
def takeFirstWords (text : String) : String :=
  String.intercalate (" ") ((pyWords text).take 800)

/-- The resume-summaries loop of _build_matching_prompt, threading the
dictionary it traverses (src/llm_engine.py lines 102-106). -/
def summarize_tr : Resumes → List (String × String) × Resumes
  | [] => ([], [])
  | (filename, data) :: rest =>
      let summary := takeFirstWords data.text
      let (others, rest2) := summarize_tr rest
      ((filename, summary) :: others, (filename, data) :: rest2)

/-- The fixed leading text of the matching prompt
(src/llm_engine.py line 110). -/
def promptHeader : String :=
  "You are an expert resume matcher for job applications. Your task is to analyze a job description and select the BEST resume from the available options.\n\n"

/-- The fixed trailing text of the matching prompt, JSON schema included
(src/llm_engine.py lines 123-147). -/
def promptFooter : String :=
  "\n\nTASK:\nAnalyze the job requirements and select the resume that is the BEST match. Consider:\n1. Technical skills alignment (frameworks, languages, tools)\n2. Experience level match (junior/mid/senior)\n3. Domain expertise (frontend/backend/fullstack/devops/etc.)\n4. Relevant projects or achievements\n\nRESPOND ONLY IN THIS EXACT JSON FORMAT (no markdown, no explanation outside JSON):\n\x7b\n  \"selected_resume\": \"exact_filename.pdf\",\n  \"confidence\": 0.85,\n  \"reasoning\": \"Brief 1-2 sentence explanation of why this resume is best\",\n  \"match_score\": 85,\n  \"key_matches\": [\"React\", \"TypeScript\", \"5+ years experience\"]\n\x7d\n\nRules:\n- selected_resume MUST be one of the exact filenames provided\n- confidence: 0.0 to 1.0 (decimal)\n- match_score: 0 to 100 (integer)\n- Be decisive - always pick ONE resume, even if none are perfect\n- If multiple resumes are equally good, pick the most specialized one\n"

/-- The per-resume delimiter block of the prompt
(src/llm_engine.py line 121). -/
def resumeSection (filename summary : String) : String :=
  "\n\n=== " ++ filename ++ " ===\n" ++ summary ++ "\n"

/-- Assembly of the prompt from the summaries: job title context, job
description truncated to 3000 characters, one delimited section per
resume, then the fixed task text (src/llm_engine.py lines 108-149). -/
def promptOfSummaries (job_description : String)
    (summaries : List (String × String)) (job_title : Option String) :
    String :=
  let job_context :=
    match job_title with
    | some t => "Job Title: " ++ t ++ "\n\n"
    | none => ""
  let base := promptHeader ++ job_context ++ "Job Description:\n---\n" ++
      job_description.take 3000 ++ "  \n---\n\nAvailable Resumes:\n"
  let withResumes :=
    summaries.foldl (fun acc p => acc ++ resumeSection p.1 p.2) base
  withResumes ++ promptFooter

/-- Embedding of _build_matching_prompt (src/llm_engine.py lines 92-149),
threading the resumes dictionary. -/
def build_matching_prompt_tr (job_description : String) (resumes : Resumes)
    (job_title : Option String) : String × Resumes :=
  let (summaries, resumes2) := summarize_tr resumes
  (promptOfSummaries job_description summaries job_title, resumes2)

/-- The list(resumes.keys()) read of _fallback_selection, threading the
dictionary (src/llm_engine.py line 207). -/
def keys_tr : Resumes → List String × Resumes
  | [] => ([], [])
  | (name, data) :: rest =>
      let (ks, rest2) := keys_tr rest
      (name :: ks, (name, data) :: rest2)

/-- Threaded _fallback_selection (src/llm_engine.py lines 203-216). -/
def fallback_selection_tr (resumes : Resumes) : Option MatchResult × Resumes :=
  let (ks, resumes2) := keys_tr resumes
  match ks with
  | [] => (none, resumes2)
  | firstResume :: _ =>
      (some { selected_resume := firstResume
              confidence := (1 : ℚ) / 2
              reasoning := fallbackReasoning
              match_score := 50
              key_matches := some [] }, resumes2)

/-- Threaded membership test `selected_resume in resumes`
(src/llm_engine.py line 173). -/
def hasKey_tr (k : String) : Resumes → Bool × Resumes
  | [] => (false, [])
  | (name, data) :: rest =>
      if name == k then (true, (name, data) :: rest)
      else
        let (b, rest2) := hasKey_tr k rest
        (b, (name, data) :: rest2)

/-- Threaded case-insensitive key scan (src/llm_engine.py lines 175-179);
the loop breaks at the first hit, leaving the tail untraversed. -/
def scanKeys_tr (sel : String) : Resumes → Option String × Resumes
  | [] => (none, [])
  | (name, data) :: rest =>
      if strLower name == strLower sel then (some name, (name, data) :: rest)
      else
        let (res, rest2) := scanKeys_tr sel rest
        (res, (name, data) :: rest2)

/-- Threaded selected_resume validation (src/llm_engine.py lines 173-181). -/
def resolveSelected_tr (sel : String) (resumes : Resumes) :
    Option String × Resumes :=
  let (present, resumes2) := hasKey_tr sel resumes
  if present then (some sel, resumes2)
  else scanKeys_tr sel resumes2

/-- Threaded _parse_llm_response (src/llm_engine.py lines 152-200). -/
def parse_llm_response_tr (raw : RawResponse) (resumes : Resumes) :
    Option MatchResult × Resumes :=
  match raw.selected_resume, raw.confidence, raw.reasoning, raw.match_score with
  | some sel, some conf, some reas, some score =>
      match resolveSelected_tr sel resumes with
      | (none, resumes2) => fallback_selection_tr resumes2
      | (some name, resumes2) =>
          (some { selected_resume := name
                  confidence := normalizeConfidence conf
                  reasoning := reas
                  match_score := clampScore score
                  key_matches := raw.key_matches }, resumes2)
  | _, _, _, _ => fallback_selection_tr resumes

/-- Threaded select_best_resume (src/llm_engine.py lines 43-89): the empty
check, then prompt construction over the dictionary, then fallback or
parsing according to the model-call outcome. -/
def select_best_resume_tr (job_description : String) (resumes : Resumes)
    (outcome : LLMOutcome) (job_title : Option String) :
    Except String MatchResult × Resumes :=
  if resumes.isEmpty then (Except.error emptyResumesMsg, resumes)
  else
    let (_prompt, resumes1) :=
      build_matching_prompt_tr job_description resumes job_title
    match outcome with
    | LLMOutcome.fault _ =>
        match fallback_selection_tr resumes1 with
        | (some mr, resumes2) => (Except.ok mr, resumes2)
        | (none, resumes2) =>
            (Except.error ("IndexError: list index out of range"), resumes2)
    | LLMOutcome.response raw =>
        match parse_llm_response_tr raw resumes1 with
        | (some mr, resumes2) => (Except.ok mr, resumes2)
        | (none, resumes2) =>
            (Except.error ("IndexError: list index out of range"), resumes2)

/- ===== Applicator data model (src/bot.py) ===== -/

/-- The seven terminal outcomes of apply_to_job (src/bot.py lines 76-173);
FailedSubmit and FailedException carry the fault description embedded in
the returned status string. -/
inductive Outcome where
  | Success
  | Skipped
  | FailedSubmit (msg : String)
  | FailedFormError
  | FailedStuck
  | FailedTooManySteps
  | FailedException (msg : String)
deriving DecidableEq

/-- Page-interaction side effects performed by apply_to_job that the
claims observe. -/
inductive BotAction where
  | clickEasyApply
  | clickSubmit
  | clickNext
  | clickReview
deriving DecidableEq

/-- What the page shows at one form step: visibility of the submit, next
and review buttons and of the inline error indicator (src/bot.py lines
136, 152-153, 161). -/
structure PageStep where
  submitVisible : Bool
  nextVisible : Bool
  reviewVisible : Bool
  errorVisible : Bool
deriving DecidableEq

/-- Abstraction of the live browser page and its faults, as consumed by
apply_to_job. Faults are modelled where the source can raise inside its
try block: navigation (page.goto), anywhere within one form iteration
(locator queries, field filling, next/review clicks), and the submit
click, which the source handles separately. The easy-apply probing loop
(src/bot.py lines 91-115) swallows per-selector faults internally, so it
is abstracted to whether some apply affordance was visibly clicked. -/
structure Env where
  gotoFault : Option String
  easyApplyVisible : Bool
  stepFault : Nat → Option String
  steps : Nat → PageStep
  submitClickFault : Option String

/-- The step budget of the form loop (src/bot.py line 125). -/
def MAX_STEPS : Nat := 10

/-- One iteration of the form loop, exactly as the source body reads
(src/bot.py lines 126-170): fill and upload (faults there are swallowed
inside the helpers), then submit check, then next/review, then
error/stuck; the branch that clicks next or review falls through to the
unconditional `return "Failed (Too many steps)"` sitting inside the loop
body at src/bot.py line 170. Except.error models a fault escaping the
iteration into the outer handler. The second component lists the clicks
performed. -/
def formStep (env : Env) (dryRun : Bool) (step : Nat) :
    Except String Outcome × List BotAction :=
  match env.stepFault step with
  | some m => (Except.error m, [])
  | none =>
      let ps := env.steps step
      if ps.submitVisible then
        if dryRun = false then
          match env.submitClickFault with
          | some m => (Except.ok (Outcome.FailedSubmit m), [])
          | none => (Except.ok Outcome.Success, [BotAction.clickSubmit])
        else (Except.ok Outcome.Success, [])
      else if ps.nextVisible then
        (Except.ok Outcome.FailedTooManySteps, [BotAction.clickNext])
      else if ps.reviewVisible then
        (Except.ok Outcome.FailedTooManySteps, [BotAction.clickReview])
      else if ps.errorVisible then
        (Except.ok Outcome.FailedFormError, [])
      else (Except.ok Outcome.FailedStuck, [])

/-- The `for step in range(max_steps)` wrapper (src/bot.py line 126).
Because every branch of the body returns, the loop never reaches a second
iteration; the fuel argument only records that an exhausted range
(possible only if max_steps were 0) would fall off the loop and return
None, modelled as Except.ok none. -/
def formLoop (env : Env) (dryRun : Bool) (fuel : Nat) (step : Nat) :
    Except String (Option Outcome) × List BotAction :=
  if fuel = 0 then (Except.ok none, [])
  else
    match formStep env dryRun step with
    | (Except.error m, acts) => (Except.error m, acts)
    | (Except.ok o, acts) => (Except.ok (some o), acts)

/-- The body of the try block of apply_to_job (src/bot.py lines 84-170):
navigate, probe the easy-apply affordances, then run the form loop. The
first component is the control outcome (Except.error a fault reaching the
outer handler, Except.ok none the impossible loop fall-through), the
second the clicks performed. -/
def tryBody (env : Env) (dryRun : Bool) :
    Except String (Option Outcome) × List BotAction :=
  match env.gotoFault with
  | some m => (Except.error m, [])
  | none =>
      if env.easyApplyVisible = false then
        (Except.ok (some Outcome.Skipped), [])
      else
        let r := formLoop env dryRun MAX_STEPS 0
        (r.1, BotAction.clickEasyApply :: r.2)

/-- Embedding of apply_to_job (src/bot.py lines 76-173) for a started
browser session: the try body with its catch-all handler mapping any
escaped fault to the FailedException outcome. Modelled from the spec: the
DRY_RUN flag read at src/bot.py line 139 is imported from src/config.py,
which does not define it; per the spec the profile/config source exposes a
dry-run flag, modelled here as the dryRun parameter. -/
def apply_to_job (env : Env) (dryRun : Bool) : Option Outcome × List BotAction :=
  match tryBody env dryRun with
  | (Except.error m, acts) => (some (Outcome.FailedException m), acts)
  | (Except.ok r, acts) => (r, acts)

/- ===== Lemmas about the threaded Matcher ===== -/

/-- The summaries loop reads the dictionary without changing it. -/
lemma summarize_tr_snd (r : Resumes) : (summarize_tr r).2 = r := by
  induction r with
  | nil => rfl
  | cons hd tl ih =>
      cases hd with
      | mk name data => simp [summarize_tr, ih]

/-- The keys read returns exactly the keys and leaves the dictionary
unchanged. -/
lemma keys_tr_eq (r : Resumes) : keys_tr r = (dictKeys r, r) := by
  induction r with
  | nil => rfl
  | cons hd tl ih =>
      cases hd with
      | mk name data => simp [keys_tr, dictKeys, ih]

/-- The threaded fallback computes the plain fallback and leaves the
dictionary unchanged. -/
lemma fallback_selection_tr_eq (r : Resumes) :
    fallback_selection_tr r = (fallback_selection r, r) := by
  cases r with
  | nil => rfl
  | cons hd tl =>
      cases hd with
      | mk name data =>
          simp [fallback_selection_tr, keys_tr_eq, dictKeys, fallback_selection]

/-- The threaded membership test computes the plain one and leaves the
dictionary unchanged. -/
lemma hasKey_tr_eq (k : String) (r : Resumes) :
    hasKey_tr k r = (dictHasKey k r, r) := by
  induction r with
  | nil => rfl
  | cons hd tl ih =>
      cases hd with
      | mk name data =>
          cases h : name == k with
          | true => simp [hasKey_tr, dictHasKey, h]
          | false => simp [hasKey_tr, dictHasKey, h, ih]

/-- The threaded case-insensitive scan computes the plain one and leaves
the dictionary unchanged. -/
lemma scanKeys_tr_eq (sel : String) (r : Resumes) :
    scanKeys_tr sel r = (findCaseInsensitive sel r, r) := by
  induction r with
  | nil => rfl
  | cons hd tl ih =>
      cases hd with
      | mk name data =>
          cases h : strLower name == strLower sel with
          | true => simp [scanKeys_tr, findCaseInsensitive, h]
          | false => simp [scanKeys_tr, findCaseInsensitive, h, ih]

/-- The threaded selected-resume validation computes the plain one and
leaves the dictionary unchanged. -/
lemma resolveSelected_tr_eq (sel : String) (r : Resumes) :
    resolveSelected_tr sel r = (resolveSelected sel r, r) := by
  unfold resolveSelected_tr resolveSelected
  rw [hasKey_tr_eq]
  cases h : dictHasKey sel r with
  | true => simp [h]
  | false => simp [h, scanKeys_tr_eq]

/-- The threaded parser computes the plain one and leaves the dictionary
unchanged. -/
lemma parse_llm_response_tr_eq (raw : RawResponse) (r : Resumes) :
    parse_llm_response_tr raw r = (parse_llm_response raw r, r) := by
  rcases raw with ⟨sel, conf, reas, score, km⟩
  cases sel with
  | none => simp [parse_llm_response_tr, parse_llm_response, fallback_selection_tr_eq]
  | some s =>
      cases conf with
      | none => simp [parse_llm_response_tr, parse_llm_response, fallback_selection_tr_eq]
      | some c =>
          cases reas with
          | none => simp [parse_llm_response_tr, parse_llm_response, fallback_selection_tr_eq]
          | some re =>
              cases score with
              | none =>
                  simp [parse_llm_response_tr, parse_llm_response,
                    fallback_selection_tr_eq]
              | some sc =>
                  simp only [parse_llm_response_tr, parse_llm_response,
                    resolveSelected_tr_eq]
                  cases h : resolveSelected s r with
                  | none => simp [h, fallback_selection_tr_eq]
                  | some name => simp [h]

/- ===== Lemmas about the plain Matcher ===== -/

/-- The normalized confidence is at least 0. -/
lemma normalizeConfidence_nonneg (c : ℚ) : 0 ≤ normalizeConfidence c :=
  le_max_left 0 _

/-- The normalized confidence is at most 1. -/
lemma normalizeConfidence_le_one (c : ℚ) : normalizeConfidence c ≤ 1 :=
  max_le (by norm_num) (min_le_left 1 _)

/-- The clamped match score is at least 0. -/
lemma clampScore_nonneg (s : Int) : 0 ≤ clampScore s :=
  le_max_left 0 _

/-- The clamped match score is at most 100. -/
lemma clampScore_le (s : Int) : clampScore s ≤ 100 :=
  max_le (by norm_num) (min_le_left 100 _)

/-- A hit of the membership test is a key of the dictionary. -/
lemma dictHasKey_mem (k : String) (r : Resumes) (h : dictHasKey k r = true) :
    k ∈ dictKeys r := by
  induction r with
  | nil => simp [dictHasKey] at h
  | cons hd tl ih =>
      cases hd with
      | mk name data =>
          simp only [dictHasKey, Bool.or_eq_true, beq_iff_eq] at h
          rcases h with h | h
          · subst h
            simp [dictKeys]
          · simp only [dictKeys, List.map_cons, List.mem_cons]
            exact Or.inr (ih h)

/-- A hit of the case-insensitive scan is a key of the dictionary. -/
lemma findCaseInsensitive_mem (sel name : String) (r : Resumes)
    (h : findCaseInsensitive sel r = some name) : name ∈ dictKeys r := by
  induction r with
  | nil => simp [findCaseInsensitive] at h
  | cons hd tl ih =>
      cases hd with
      | mk nm data =>
          unfold findCaseInsensitive at h
          split at h
          · injection h with h2
            subst h2
            simp [dictKeys]
          · simp only [dictKeys, List.map_cons, List.mem_cons]
            exact Or.inr (ih h)

/-- A resolved selected resume is a key of the dictionary. -/
lemma resolveSelected_mem (sel name : String) (r : Resumes)
    (h : resolveSelected sel r = some name) : name ∈ dictKeys r := by
  unfold resolveSelected at h
  split at h
  next hk =>
    injection h with h2
    subst h2
    exact dictHasKey_mem _ r hk
  next hk =>
    exact findCaseInsensitive_mem sel name r h

/-- The fallback on a non-empty dictionary yields the first key and
in-range confidence and score. -/
lemma fallback_props (name : String) (data : ResumeRecord) (rest : Resumes) :
    ∃ mr, fallback_selection ((name, data) :: rest) = some mr ∧
      mr.selected_resume ∈ dictKeys ((name, data) :: rest) ∧
      0 ≤ mr.confidence ∧ mr.confidence ≤ 1 ∧
      0 ≤ mr.match_score ∧ mr.match_score ≤ 100 := by
  refine ⟨_, rfl, ?_, ?_, ?_, ?_, ?_⟩
  · simp [fallback_selection, dictKeys]
  · norm_num [fallback_selection]
  · norm_num [fallback_selection]
  · norm_num [fallback_selection]
  · norm_num [fallback_selection]

/-- The parser on a non-empty dictionary yields a valid key and in-range
confidence and score. -/
lemma parse_props (raw : RawResponse) (name : String) (data : ResumeRecord)
    (rest : Resumes) :
    ∃ mr, parse_llm_response raw ((name, data) :: rest) = some mr ∧
      mr.selected_resume ∈ dictKeys ((name, data) :: rest) ∧
      0 ≤ mr.confidence ∧ mr.confidence ≤ 1 ∧
      0 ≤ mr.match_score ∧ mr.match_score ≤ 100 := by
  rcases raw with ⟨sel, conf, reas, score, km⟩
  cases sel with
  | none => simpa [parse_llm_response] using fallback_props name data rest
  | some s =>
      cases conf with
      | none => simpa [parse_llm_response] using fallback_props name data rest
      | some c =>
          cases reas with
          | none => simpa [parse_llm_response] using fallback_props name data rest
          | some re =>
              cases score with
              | none =>
                  simpa [parse_llm_response] using fallback_props name data rest
              | some sc =>
                  cases h : resolveSelected s ((name, data) :: rest) with
                  | none =>
                      simpa [parse_llm_response, h] using
                        fallback_props name data rest
                  | some nm =>
                      refine ⟨{ selected_resume := nm
                                confidence := normalizeConfidence c
                                reasoning := re
                                match_score := clampScore sc
                                key_matches := km },
                        by simp [parse_llm_response, h], ?_, ?_, ?_, ?_, ?_⟩
                      · exact resolveSelected_mem s nm _ h
                      · exact normalizeConfidence_nonneg c
                      · exact normalizeConfidence_le_one c
                      · exact clampScore_nonneg sc
                      · exact clampScore_le sc

/-- The prompt builder reads the dictionary without changing it. -/
lemma build_matching_prompt_tr_eq (jd : String) (r : Resumes)
    (jt : Option String) :
    build_matching_prompt_tr jd r jt =
      (promptOfSummaries jd (summarize_tr r).1 jt, r) := by
  have h : summarize_tr r = ((summarize_tr r).1, r) := by
    cases hs : summarize_tr r with
    | mk a b =>
        have hb := summarize_tr_snd r
        rw [hs] at hb
        simp only [Prod.mk.injEq]
        exact ⟨trivial, hb⟩
  unfold build_matching_prompt_tr
  rw [h]

/- ===== Concrete fixtures ===== -/

/-- A concrete frontend resume record. -/
def resumeA : ResumeRecord := ResumeRecord.mk ("Frontend developer with React and TypeScript experience")

/-- A concrete backend resume record. -/
def resumeB : ResumeRecord := ResumeRecord.mk ("Backend engineer with Node and PostgreSQL experience")

/-- The two-entry resumes dictionary of the fallback-determinism scenario. -/
def resumesAB : Resumes := [(("a.pdf"), resumeA), (("b.pdf"), resumeB)]

/-- A well-formed model response reporting its confidence on the percent
scale. -/
def rawPercent : RawResponse :=
  RawResponse.mk (some ("a.pdf")) (some 85)
    (some ("Strong React and TypeScript overlap")) (some 85) (some [])

/- ===== Claim theorems: Matcher ===== -/

/-- C3: for every non-empty resumes dictionary and every model-call
outcome, select_best_resume returns a result whose selected resume is a
key of the dictionary, whose confidence lies in the unit interval and
whose match score lies between 0 and 100. -/
theorem select_best_resume_valid (resumes : Resumes) (outcome : LLMOutcome)
    (hne : resumes ≠ []) :
    ∃ mr, select_best_resume resumes outcome = Except.ok mr ∧
      mr.selected_resume ∈ dictKeys resumes ∧
      0 ≤ mr.confidence ∧ mr.confidence ≤ 1 ∧
      0 ≤ mr.match_score ∧ mr.match_score ≤ 100 := by
  cases resumes with
  | nil => exact absurd rfl hne
  | cons hd rest =>
      cases hd with
      | mk name data =>
          cases outcome with
          | fault msg =>
              obtain ⟨mr, hmr, hprops⟩ := fallback_props name data rest
              exact ⟨mr, by simp [select_best_resume, hmr], hprops⟩
          | response raw =>
              obtain ⟨mr, hmr, hprops⟩ := parse_props raw name data rest
              exact ⟨mr, by simp [select_best_resume, hmr], hprops⟩

/-- Witness for select_best_resume_valid at a concrete dictionary and a
concrete model fault. -/
theorem select_best_resume_valid_witness :
    ∃ mr, select_best_resume resumesAB (LLMOutcome.fault ("boom")) =
        Except.ok mr ∧
      mr.selected_resume ∈ dictKeys resumesAB ∧
      0 ≤ mr.confidence ∧ mr.confidence ≤ 1 ∧
      0 ≤ mr.match_score ∧ mr.match_score ≤ 100 :=
  select_best_resume_valid resumesAB (LLMOutcome.fault ("boom"))
    (by simp [resumesAB])

/-- C4: on a model fault, and likewise on any response that fails
parsing or validation — a missing selected_resume, confidence, reasoning
or match_score field, or a reported resume name that resolves to no key
of the dictionary — the Matcher deterministically returns the first
resume in iteration order with confidence one half, match score 50 and
the fallback reasoning. -/
theorem fallback_deterministic (name : String) (data : ResumeRecord)
    (rest : Resumes) (msg : String) (raw : RawResponse) :
    select_best_resume ((name, data) :: rest) (LLMOutcome.fault msg) =
      Except.ok { selected_resume := name
                  confidence := (1 : ℚ) / 2
                  reasoning := fallbackReasoning
                  match_score := 50
                  key_matches := some [] } ∧
    ((raw.selected_resume = none ∨ raw.confidence = none ∨
      raw.reasoning = none ∨ raw.match_score = none ∨
      (∀ sel, raw.selected_resume = some sel →
        resolveSelected sel ((name, data) :: rest) = none)) →
      select_best_resume ((name, data) :: rest) (LLMOutcome.response raw) =
        Except.ok { selected_resume := name
                    confidence := (1 : ℚ) / 2
                    reasoning := fallbackReasoning
                    match_score := 50
                    key_matches := some [] }) := by
  constructor
  · simp [select_best_resume, fallback_selection]
  · intro hfail
    rcases raw with ⟨sel, conf, reas, score, km⟩
    cases sel with
    | none => simp [select_best_resume, parse_llm_response, fallback_selection]
    | some s =>
        cases conf with
        | none =>
            simp [select_best_resume, parse_llm_response, fallback_selection]
        | some c =>
            cases reas with
            | none =>
                simp [select_best_resume, parse_llm_response,
                  fallback_selection]
            | some re =>
                cases score with
                | none =>
                    simp [select_best_resume, parse_llm_response,
                      fallback_selection]
                | some sc =>
                    have hres :
                        resolveSelected s ((name, data) :: rest) = none := by
                      rcases hfail with h | h | h | h | h
                      · exact absurd h (by simp)
                      · exact absurd h (by simp)
                      · exact absurd h (by simp)
                      · exact absurd h (by simp)
                      · exact h s rfl
                    simp [select_best_resume, parse_llm_response, hres,
                      fallback_selection]

/-- Witness for fallback_deterministic: the a.pdf / b.pdf dictionary under
a simulated model fault, and under a decoded response missing every
required field, selects a.pdf with confidence one half and score 50. -/
theorem fallback_deterministic_witness :
    select_best_resume resumesAB (LLMOutcome.fault ("simulated")) =
      Except.ok { selected_resume := ("a.pdf")
                  confidence := (1 : ℚ) / 2
                  reasoning := fallbackReasoning
                  match_score := 50
                  key_matches := some [] } ∧
    select_best_resume resumesAB
        (LLMOutcome.response (RawResponse.mk none none none none none)) =
      Except.ok { selected_resume := ("a.pdf")
                  confidence := (1 : ℚ) / 2
                  reasoning := fallbackReasoning
                  match_score := 50
                  key_matches := some [] } :=
  ⟨(fallback_deterministic ("a.pdf") resumeA [(("b.pdf"), resumeB)]
      ("simulated") (RawResponse.mk none none none none none)).1,
   (fallback_deterministic ("a.pdf") resumeA [(("b.pdf"), resumeB)]
      ("simulated") (RawResponse.mk none none none none none)).2
     (Or.inl rfl)⟩

/-- C6: a reported confidence strictly above 1 is interpreted as a percent
and divided by 100, then clamped to the unit interval; in particular a
well-formed response with confidence 85 parses to confidence 0.85. -/
theorem confidence_percent_normalized :
    (∀ c : ℚ, 1 < c → normalizeConfidence c = max 0 (min 1 (c / 100))) ∧
    ∃ mr, parse_llm_response rawPercent resumesAB = some mr ∧
      mr.confidence = (85 : ℚ) / 100 := by
  constructor
  · intro c hc
    unfold normalizeConfidence
    rw [if_pos hc]
  · have hnorm : normalizeConfidence 85 = (85 : ℚ) / 100 := by
      unfold normalizeConfidence
      norm_num [min_def, max_def]
    refine ⟨{ selected_resume := ("a.pdf")
              confidence := (85 : ℚ) / 100
              reasoning := ("Strong React and TypeScript overlap")
              match_score := clampScore 85
              key_matches := some [] }, ?_, rfl⟩
    simp [parse_llm_response, rawPercent, resumesAB, resolveSelected,
      dictHasKey, hnorm]

/-- Witness for confidence_percent_normalized at the concrete percent
value 85. -/
theorem confidence_percent_normalized_witness :
    normalizeConfidence 85 = max 0 (min 1 ((85 : ℚ) / 100)) :=
  confidence_percent_normalized.1 85 (by norm_num)

/-- C7: select_best_resume surfaces an error to its caller exactly when
the resumes dictionary is empty, in which case the error is the
empty-candidate fault; on a non-empty dictionary every fault is absorbed
into a returned result. -/
theorem select_raises_iff_empty (resumes : Resumes) (outcome : LLMOutcome) :
    ((∃ msg, select_best_resume resumes outcome = Except.error msg) ↔
      resumes = []) ∧
    (resumes = [] →
      select_best_resume resumes outcome = Except.error emptyResumesMsg) := by
  cases resumes with
  | nil =>
      constructor
      · constructor
        · intro _
          rfl
        · intro _
          exact ⟨emptyResumesMsg, by simp [select_best_resume]⟩
      · intro _
        simp [select_best_resume]
  | cons hd rest =>
      cases hd with
      | mk name data =>
          have hok : ∃ mr,
              select_best_resume ((name, data) :: rest) outcome =
                Except.ok mr := by
            cases outcome with
            | fault m =>
                obtain ⟨mr, hmr, -⟩ := fallback_props name data rest
                exact ⟨mr, by simp [select_best_resume, hmr]⟩
            | response raw =>
                obtain ⟨mr, hmr, -⟩ := parse_props raw name data rest
                exact ⟨mr, by simp [select_best_resume, hmr]⟩
          obtain ⟨mr, hmr⟩ := hok
          constructor
          · constructor
            · rintro ⟨msg, hmsg⟩
              rw [hmr] at hmsg
              simp at hmsg
            · intro h
              simp at h
          · intro h
            simp at h

/-- Witness for select_raises_iff_empty at the empty dictionary. -/
theorem select_raises_iff_empty_witness :
    select_best_resume ([] : Resumes) (LLMOutcome.fault ("down")) =
      Except.error emptyResumesMsg :=
  (select_raises_iff_empty ([] : Resumes) (LLMOutcome.fault ("down"))).2 rfl

/-- C9: the Matcher never mutates the resumes dictionary: the threaded
embedding of select_best_resume (prompt building, response parsing and
fallback included) hands the dictionary back unchanged and computes the
same result as the plain embedding. -/
theorem matcher_preserves_resumes (job_description : String)
    (resumes : Resumes) (outcome : LLMOutcome) (job_title : Option String) :
    (select_best_resume_tr job_description resumes outcome job_title).2 =
      resumes ∧
    (select_best_resume_tr job_description resumes outcome job_title).1 =
      select_best_resume resumes outcome := by
  cases resumes with
  | nil =>
      constructor <;> rfl
  | cons hd rest =>
      cases outcome with
      | fault m =>
          simp only [select_best_resume_tr, select_best_resume,
            List.isEmpty_cons, Bool.false_eq_true, if_false,
            build_matching_prompt_tr_eq, fallback_selection_tr_eq]
          cases hf : fallback_selection (hd :: rest) with
          | none => simp [hf]
          | some mr => simp [hf]
      | response raw =>
          simp only [select_best_resume_tr, select_best_resume,
            List.isEmpty_cons, Bool.false_eq_true, if_false,
            build_matching_prompt_tr_eq, parse_llm_response_tr_eq]
          cases hp : parse_llm_response raw (hd :: rest) with
          | none => simp [hp]
          | some mr => simp [hp]

/-- C5: should_apply is a deterministic pure gate: it approves exactly
when the confidence and score thresholds are met and no red flag occurs
in the lowered job description; with confidence one half against a 0.6
threshold it rejects, and any job description whose lowering contains the
phrase commission only is rejected regardless of scores and thresholds. -/
theorem should_apply_gate (job_description : String) (m : MatchDict)
    (minc : ℚ) (mins : Int) :
    (should_apply job_description m minc mins = true ↔
      (minc ≤ m.confidence.getD 0 ∧ mins ≤ m.match_score.getD 0 ∧
        hasRedFlag job_description = false)) ∧
    (∀ jd : String, ∀ s : Int,
      should_apply jd (MatchDict.mk (some ((1 : ℚ) / 2)) (some 80))
        ((6 : ℚ) / 10) s = false) ∧
    (strContains (strLower job_description) ("commission only") = true →
      should_apply job_description m minc mins = false) := by
  refine ⟨?_, ?_, ?_⟩
  · simp only [should_apply]
    by_cases h1 : m.confidence.getD 0 < minc
    · rw [if_pos h1]
      simp only [Bool.false_eq_true, false_iff]
      rintro ⟨hc, -, -⟩
      exact absurd h1 (not_lt.mpr hc)
    · rw [if_neg h1]
      by_cases h2 : m.match_score.getD 0 < mins
      · rw [if_pos h2]
        simp only [Bool.false_eq_true, false_iff]
        rintro ⟨-, hs, -⟩
        exact absurd h2 (not_lt.mpr hs)
      · rw [if_neg h2]
        cases h3 : hasRedFlag job_description with
        | true => simp
        | false => simp [not_lt.mp h1, not_lt.mp h2]
  · intro jd s
    simp only [should_apply, Option.getD_some]
    rw [if_pos (by norm_num : ((1 : ℚ) / 2) < (6 : ℚ) / 10)]
  · intro h
    have hf : hasRedFlag job_description = true := by
      unfold hasRedFlag red_flags
      simp only [List.any_cons, List.any_nil, Bool.or_eq_true]
      exact Or.inl h
    simp only [should_apply]
    by_cases h1 : m.confidence.getD 0 < minc
    · rw [if_pos h1]
    · rw [if_neg h1]
      by_cases h2 : m.match_score.getD 0 < mins
      · rw [if_pos h2]
      · rw [if_neg h2, if_pos hf]

/-- Witness for should_apply_gate: a job description containing the
capitalized phrase Commission Only is rejected even with maximal
confidence and score. -/
theorem should_apply_gate_witness :
    should_apply ("Great pay! Commission Only role")
      (MatchDict.mk (some 1) (some 100)) 0 0 = false :=
  (should_apply_gate ("Great pay! Commission Only role")
    (MatchDict.mk (some 1) (some 100)) 0 0).2.2 (by decide)

/-- C10: a match_result dictionary missing the confidence key (or the
match_score key) is read as 0 by should_apply, so any strictly positive
corresponding threshold makes the gate reject instead of raising. -/
theorem should_apply_missing_keys :
    (∀ (jd : String) (s : Option Int) (minc : ℚ) (mins : Int), 0 < minc →
      should_apply jd (MatchDict.mk none s) minc mins = false) ∧
    (∀ (jd : String) (c : Option ℚ) (minc : ℚ) (mins : Int), 0 < mins →
      should_apply jd (MatchDict.mk c none) minc mins = false) := by
  constructor
  · intro jd s minc mins hminc
    simp only [should_apply, Option.getD_none]
    rw [if_pos hminc]
  · intro jd c minc mins hmins
    simp only [should_apply, Option.getD_none]
    by_cases h1 : c.getD 0 < minc
    · rw [if_pos h1]
    · rw [if_neg h1, if_pos hmins]

/-- Witness for should_apply_missing_keys: both missing keys at concrete
thresholds. -/
theorem should_apply_missing_keys_witness :
    should_apply ("some job") (MatchDict.mk none none) 1 60 = false :=
  should_apply_missing_keys.1 ("some job") none 1 60 (by norm_num)

/- ===== Claim theorems: Applicator ===== -/

/-- With a positive step budget, the form loop hands back exactly the
result of its single reachable iteration. -/
lemma formLoop_max_shape (env : Env) (dryRun : Bool) :
    formLoop env dryRun MAX_STEPS 0 =
      match formStep env dryRun 0 with
      | (Except.error m, acts) => (Except.error m, acts)
      | (Except.ok o, acts) => (Except.ok (some o), acts) := by
  unfold formLoop MAX_STEPS
  rw [if_neg (by norm_num : (10 : Nat) ≠ 0)]

/-- An environment whose navigation faults. -/
def envGotoFault : Env :=
  Env.mk (some ("net down")) false (fun _ => none)
    (fun _ => PageStep.mk false false false false) none

/-- An environment that reaches the form with the submit button visible at
the first step. -/
def envSubmitStep : Env :=
  Env.mk none true (fun _ => none)
    (fun _ => PageStep.mk true false false false) none

/-- An environment whose first form step shows only the Next button and
whose second step shows the Submit button: a two-page form. -/
def envMultiStep : Env :=
  Env.mk none true (fun _ => none)
    (fun step =>
      if step = 0 then PageStep.mk false true false false
      else PageStep.mk true false false false) none

/-- C1: evidence against the step-budget claim, at the two-page-form
environment: the source clicks Next once and then hits the unconditional
return sitting inside the loop body (src/bot.py line 170), so apply_to_job
reports FailedTooManySteps after a single iteration even though the budget
of 10 is not exhausted and a submit affordance is one step away; the loop,
contradicting its own comment about looping up to 10 times, cannot reach a
second iteration. -/
theorem form_loop_early_return :
    apply_to_job envMultiStep true =
      (some Outcome.FailedTooManySteps,
        [BotAction.clickEasyApply, BotAction.clickNext]) := by
  rfl

/-- C2: apply_to_job always yields exactly one of the seven terminal
outcomes and never lets a fault escape to its caller: the try body either
produces an outcome or raises, and a raised fault is mapped to the
FailedException outcome carrying the fault description. -/
theorem apply_to_job_seven_outcomes (env : Env) (dryRun : Bool) :
    (∃ o : Outcome, (apply_to_job env dryRun).1 = some o) ∧
    (∀ o : Outcome, (apply_to_job env dryRun).1 = some o →
      o = Outcome.Success ∨ o = Outcome.Skipped ∨
      (∃ m, o = Outcome.FailedSubmit m) ∨ o = Outcome.FailedFormError ∨
      o = Outcome.FailedStuck ∨ o = Outcome.FailedTooManySteps ∨
      (∃ m, o = Outcome.FailedException m)) ∧
    (∀ m : String, (tryBody env dryRun).1 = Except.error m →
      (apply_to_job env dryRun).1 = some (Outcome.FailedException m)) := by
  refine ⟨?_, ?_, ?_⟩
  · cases hg : env.gotoFault with
    | some m =>
        exact ⟨Outcome.FailedException m, by simp [apply_to_job, tryBody, hg]⟩
    | none =>
        cases he : env.easyApplyVisible with
        | false =>
            exact ⟨Outcome.Skipped, by simp [apply_to_job, tryBody, hg, he]⟩
        | true =>
            rcases hfs : formStep env dryRun 0 with ⟨r0, acts0⟩
            cases r0 with
            | error m =>
                exact ⟨Outcome.FailedException m,
                  by simp [apply_to_job, tryBody, formLoop_max_shape, hg, he, hfs]⟩
            | ok o =>
                exact ⟨o,
                  by simp [apply_to_job, tryBody, formLoop_max_shape, hg, he, hfs]⟩
  · intro o _
    cases o with
    | Success => exact Or.inl rfl
    | Skipped => exact Or.inr (Or.inl rfl)
    | FailedSubmit m => exact Or.inr (Or.inr (Or.inl ⟨m, rfl⟩))
    | FailedFormError => exact Or.inr (Or.inr (Or.inr (Or.inl rfl)))
    | FailedStuck => exact Or.inr (Or.inr (Or.inr (Or.inr (Or.inl rfl))))
    | FailedTooManySteps =>
        exact Or.inr (Or.inr (Or.inr (Or.inr (Or.inr (Or.inl rfl)))))
    | FailedException m =>
        exact Or.inr (Or.inr (Or.inr (Or.inr (Or.inr (Or.inr ⟨m, rfl⟩)))))
  · intro m hm
    rcases ht : tryBody env dryRun with ⟨r, acts⟩
    rw [ht] at hm
    cases r with
    | error m2 =>
        simp only at hm
        injection hm with hm2
        subst hm2
        simp [apply_to_job, ht]
    | ok r2 => simp at hm

/-- Witness for apply_to_job_seven_outcomes: a navigation fault is mapped
to the FailedException outcome carrying the description. -/
theorem apply_to_job_seven_outcomes_witness :
    (apply_to_job envGotoFault true).1 =
      some (Outcome.FailedException ("net down")) :=
  (apply_to_job_seven_outcomes envGotoFault true).2.2 ("net down") rfl

/-- C8: under the dry-run policy a visible submit affordance at the
reached form step yields the Success outcome, and no dry-run execution
ever performs the submit click. -/
theorem dry_run_success_without_submit (env : Env) :
    (env.gotoFault = none → env.easyApplyVisible = true →
      env.stepFault 0 = none → (env.steps 0).submitVisible = true →
      apply_to_job env true =
        (some Outcome.Success, [BotAction.clickEasyApply])) ∧
    BotAction.clickSubmit ∉ (apply_to_job env true).2 := by
  constructor
  · intro hg he hsf hsv
    simp [apply_to_job, tryBody, formLoop_max_shape, formStep, hg, he, hsf, hsv]
  · cases hg : env.gotoFault with
    | some m => simp [apply_to_job, tryBody, hg]
    | none =>
        cases he : env.easyApplyVisible with
        | false => simp [apply_to_job, tryBody, hg, he]
        | true =>
            cases hsf : env.stepFault 0 with
            | some m =>
                simp [apply_to_job, tryBody, formLoop_max_shape, formStep,
                  hg, he, hsf]
            | none =>
                cases hsv : (env.steps 0).submitVisible with
                | true =>
                    simp [apply_to_job, tryBody, formLoop_max_shape, formStep,
                      hg, he, hsf, hsv]
                | false =>
                    cases hnv : (env.steps 0).nextVisible with
                    | true =>
                        simp [apply_to_job, tryBody, formLoop_max_shape,
                          formStep, hg, he, hsf, hsv, hnv]
                    | false =>
                        cases hrv : (env.steps 0).reviewVisible with
                        | true =>
                            simp [apply_to_job, tryBody, formLoop_max_shape,
                              formStep, hg, he, hsf, hsv, hnv, hrv]
                        | false =>
                            cases hev : (env.steps 0).errorVisible with
                            | true =>
                                simp [apply_to_job, tryBody,
                                  formLoop_max_shape, formStep, hg, he, hsf,
                                  hsv, hnv, hrv, hev]
                            | false =>
                                simp [apply_to_job, tryBody,
                                  formLoop_max_shape, formStep, hg, he, hsf,
                                  hsv, hnv, hrv, hev]

/-- Witness for dry_run_success_without_submit at the concrete environment
with a visible submit button. -/
theorem dry_run_success_without_submit_witness :
    apply_to_job envSubmitStep true =
      (some Outcome.Success, [BotAction.clickEasyApply]) :=
  (dry_run_success_without_submit envSubmitStep).1 rfl rfl rfl rfl
